import Mathlib

/-!
Verification of the multi-tenant organization/membership core of the
tanstack-starter repository.

The embedding models, from the source:
- the relational store (organizations, organization_members, user_profiles,
  todos) from supabase/migrations/20240321000000_create_organizations.sql and
  the todos multi-tenancy migration;
- the SQL helper functions (is_organization_member, is_organization_admin,
  is_organization_owner, get_current_organization_id), the RPCs
  (create_organization_with_owner, leave_organization), the
  prevent_todo_org_change trigger, and the effective row-level-security
  policies, including the HEA-30 replacement of the Admins can add members
  insert policy (supabase/seed.sql) and the user_profiles select policies;
- the server functions in src/lib/server/organizations.ts
  (createOrganization, addOrganizationMember, updateMemberRole, removeMember,
  leaveOrganization, deleteOrganization).

Ids are modelled as Nat, auth.uid() as an Option Nat argument, and each
operation as a function from the store state to Except error state: a raised
SQL exception or thrown server error aborts the transaction, so an error
result carries no new state (rollback semantics).
-/

/-- Enum organization_role from the schema: owner, admin, member. -/
inductive Role where
  | owner
  | admin
  | member
deriving DecidableEq

/-- Row of public.organizations (timestamps omitted: no claim mentions them). -/
structure Organization where
  id : Nat
  name : String
  slug : String
  logo_url : Option String
deriving DecidableEq

/-- Row of public.organization_members. -/
structure OrganizationMember where
  id : Nat
  organization_id : Nat
  user_id : Nat
  role : Role
deriving DecidableEq

/-- Row of public.user_profiles (display_name and avatar_url omitted: no claim
mentions them; current_organization_id is the nullable pointer). -/
structure UserProfile where
  id : Nat
  current_organization_id : Option Nat
deriving DecidableEq

/-- Row of public.todos after the multi-tenancy migration: creator user_id and
nullable organization_id. -/
structure Todo where
  id : Nat
  user_id : Nat
  organization_id : Option Nat
deriving DecidableEq

/-- The relational store. -/
structure DB where
  organizations : List Organization
  organization_members : List OrganizationMember
  user_profiles : List UserProfile
  todos : List Todo
deriving DecidableEq

/-- Lookup of the membership row for (organization_id, user_id); unique by the
organization_members_unique constraint. -/
def DB.findMembership (db : DB) (orgId userId : Nat) : Option OrganizationMember :=
  db.organization_members.find? (fun m => m.organization_id == orgId && m.user_id == userId)

/-- Lookup of a membership row by primary key. -/
def DB.findMembershipById (db : DB) (memId : Nat) : Option OrganizationMember :=
  db.organization_members.find? (fun m => m.id == memId)

/-- SELECT COUNT(*) FROM organization_members WHERE organization_id = orgId. -/
def DB.memberCount (db : DB) (orgId : Nat) : Nat :=
  (db.organization_members.filter (fun m => m.organization_id == orgId)).length

/-- Lookup of the user_profiles row by primary key. -/
def DB.findProfile (db : DB) (userId : Nat) : Option UserProfile :=
  db.user_profiles.find? (fun p => p.id == userId)

/-- SELECT current_organization_id FROM user_profiles WHERE id = userId:
none when the row is absent or the column is null. -/
def profilePointer (db : DB) (userId : Nat) : Option Nat :=
  (db.findProfile userId).bind (fun p => p.current_organization_id)

/-- EXISTS(SELECT 1 FROM organizations WHERE slug = s): the arbiter of the
organizations_slug_format unique constraint. -/
def DB.slugTaken (db : DB) (s : String) : Bool :=
  db.organizations.any (fun o => o.slug == s)

/-- SQL function public.is_organization_member(org_id). -/
def is_organization_member (db : DB) (uid orgId : Nat) : Bool :=
  (db.findMembership orgId uid).isSome

/-- SQL function public.is_organization_admin(org_id): role in (owner, admin). -/
def is_organization_admin (db : DB) (uid orgId : Nat) : Bool :=
  match db.findMembership orgId uid with
  | some m => m.role == Role.owner || m.role == Role.admin
  | none => false

/-- SQL function public.is_organization_owner(org_id). -/
def is_organization_owner (db : DB) (uid orgId : Nat) : Bool :=
  match db.findMembership orgId uid with
  | some m => m.role == Role.owner
  | none => false

/-- SQL function public.get_current_organization_id():
COALESCE(profile pointer, first organization the user is a member of). -/
def get_current_organization_id (db : DB) (uid : Nat) : Option Nat :=
  match profilePointer db uid with
  | some o => some o
  | none =>
      (db.organization_members.find? (fun m => m.user_id == uid)).map
        (fun m => m.organization_id)

/-- Errors surfaced by the PostgreSQL layer: unique-constraint violation
(SQLSTATE 23505), CHECK-constraint violation, row-level-security WITH CHECK
violation (SQLSTATE 42501), or RAISE EXCEPTION msg. -/
inductive PgError where
  | unique_violation
  | check_violation
  | rls_violation
  | raised (msg : String)
deriving DecidableEq

deriving instance DecidableEq for Except

/-- Message text the TypeScript layer sees for a PgError. -/
def pgErrorMessage : PgError → String
  | PgError.unique_violation => "duplicate key value violates unique constraint"
  | PgError.check_violation => "value violates check constraint"
  | PgError.rls_violation => "new row violates row-level security policy"
  | PgError.raised msg => msg

/-- Prefix test on character lists. -/
def charsPrefix : List Char → List Char → Bool
  | [], _ => true
  | _ :: _, [] => false
  | c :: cs, d :: ds => c == d && charsPrefix cs ds

/-- Substring test on character lists: the pattern is a prefix of some
suffix. -/
def charsInfix (pat : List Char) : List Char → Bool
  | [] => charsPrefix pat []
  | d :: ds => charsPrefix pat (d :: ds) || charsInfix pat ds

/-- JavaScript String.prototype.includes, used by the server layer to map
raised SQL exception messages to domain errors. -/
def msgIncludes (msg pat : String) : Bool :=
  charsInfix pat.data msg.data

/-- Domain errors thrown by src/lib/server/organizations.ts, one constructor
per distinct thrown message. -/
inductive OrgError where
  | Unauthorized
  | ValidationError
  | SlugConflict
  | NotAMember
  | MemberNotFound
  | OnlyAdminsCanAddMembers
  | TargetUserNotFound
  | AlreadyMember
  | NoPermissionChangeRoles
  | NoPermissionModifyMemberRole
  | OnlyOwnersCanTransferOwnership
  | NoPermissionRemoveMembers
  | NoPermissionRemoveThisMember
  | CannotRemoveOwner
  | MustTransferOwnership
  | OnlyOwnerCanDeleteOrganization
  | StoreFailure
deriving DecidableEq

/-- Message raised by leave_organization when the caller has no membership. -/
def notMemberMsg : String := "You are not a member of this organization"

/-- Message raised by leave_organization for an owner with other members. -/
def mustTransferMsg : String := "You must transfer ownership before leaving the organization"

/-- Substring the TypeScript wrapper matches for MustTransferOwnership. -/
def transferPat : String := "transfer ownership"

/-- Substring the TypeScript wrapper matches for NotAMember. -/
def notMemberPat : String := "not a member"

/-- Substring the TypeScript wrapper matches for Unauthorized. -/
def notAuthPat : String := "not authenticated"

/-- Zod CreateOrganizationSchema name rule: at least 2 characters; identical
to the organizations_name_check table constraint. -/
def validName (s : String) : Bool :=
  decide (2 ≤ s.length)

/-- Character class [a-z0-9] of the slug regex. -/
def isLowerAlnum (c : Char) : Bool :=
  (('a' ≤ c) && (c ≤ 'z')) || (('0' ≤ c) && (c ≤ '9'))

/-- Zod CreateOrganizationSchema slug rule: min length 3 and the regex
lowercase alphanumeric plus hyphen, not starting or ending with a hyphen;
identical to the organizations_slug_format table constraint. -/
def validSlug (s : String) : Bool :=
  let cs := s.data
  decide (3 ≤ cs.length) &&
  (match cs.head? with
   | some c => isLowerAlnum c
   | none => false) &&
  (match cs.getLast? with
   | some c => isLowerAlnum c
   | none => false) &&
  cs.all (fun c => isLowerAlnum c || c == '-')

/-- Input accepted by createOrganization. The url() refinement on logo_url is
not modelled (no claim exercises it; every concrete input here omits logo). -/
structure CreateOrgInput where
  name : String
  slug : String
  logo_url : Option String
deriving DecidableEq

/-- CreateOrganizationSchema.parse succeeding, as a Bool. -/
def validCreateOrganizationInput (input : CreateOrgInput) : Bool :=
  validName input.name && validSlug input.slug

/-- ON CONFLICT (id) DO UPDATE upsert of user_profiles setting
current_organization_id. -/
def upsertProfileCurrent (ps : List UserProfile) (uid orgId : Nat) : List UserProfile :=
  if ps.any (fun p => p.id == uid) then
    ps.map (fun p =>
      if p.id == uid then { p with current_organization_id := some orgId } else p)
  else
    ps ++ [{ id := uid, current_organization_id := some orgId }]

/-- RPC public.create_organization_with_owner: in one transaction, insert the
organization row (table CHECK constraints, then the slug unique constraint),
insert the owner membership for auth.uid(), and upsert the profile pointer.
Returns the new organization id. -/
def create_organization_with_owner (db : DB) (uid : Nat) (input : CreateOrgInput)
    (newOrgId newMemId : Nat) : Except PgError (Nat × DB) :=
  if ¬ (validName input.name = true ∧ validSlug input.slug = true) then
    Except.error PgError.check_violation
  else if db.slugTaken input.slug = true then
    Except.error PgError.unique_violation
  else
    let org : Organization :=
      { id := newOrgId, name := input.name, slug := input.slug, logo_url := input.logo_url }
    let mem : OrganizationMember :=
      { id := newMemId, organization_id := newOrgId, user_id := uid, role := Role.owner }
    Except.ok (newOrgId,
      { db with
        organizations := db.organizations ++ [org]
        organization_members := db.organization_members ++ [mem]
        user_profiles := upsertProfileCurrent db.user_profiles uid newOrgId })

/-- Server function createOrganization: CreateOrganizationSchema.parse runs
first (before any client or auth interaction), then auth, then the RPC; a
23505 unique violation is mapped to the slug-conflict error, and the created
organization row is fetched back by id. -/
def createOrganization (db : DB) (auth : Option Nat) (input : CreateOrgInput)
    (newOrgId newMemId : Nat) : Except OrgError (Organization × DB) :=
  if validCreateOrganizationInput input = true then
    match auth with
    | none => Except.error OrgError.Unauthorized
    | some uid =>
        match create_organization_with_owner db uid input newOrgId newMemId with
        | Except.error PgError.unique_violation => Except.error OrgError.SlugConflict
        | Except.error _ => Except.error OrgError.StoreFailure
        | Except.ok (oid, db2) =>
            match db2.organizations.find? (fun o => o.id == oid) with
            | some org => Except.ok (org, db2)
            | none => Except.error OrgError.StoreFailure
  else
    Except.error OrgError.ValidationError

/-- SELECT visibility of a user_profiles row under the profile RLS policies
run with the caller's session: Users can view own profile (id = auth.uid())
or Users can view org member profiles (the target is a member of one of the
viewer's organizations). -/
def canViewProfile (db : DB) (viewer target : Nat) : Bool :=
  target == viewer ||
  db.organization_members.any (fun om =>
    om.user_id == target && is_organization_member db viewer om.organization_id)

/-- INSERT into organization_members issued with the caller's session, under
the effective Admins can add members policy: the HEA-30 fix in
supabase/seed.sql drops and recreates it with role validation, WITH CHECK
is_organization_admin(organization_id) AND (role != owner OR
is_organization_owner(organization_id)); a failing WITH CHECK raises the
42501 row-level-security violation before the (organization_id, user_id)
unique constraint is reached. -/
def insertOrganizationMember (db : DB) (uid : Nat) (mem : OrganizationMember) :
    Except PgError DB :=
  if ¬ (is_organization_admin db uid mem.organization_id = true ∧
        (mem.role ≠ Role.owner ∨
          is_organization_owner db uid mem.organization_id = true)) then
    Except.error PgError.rls_violation
  else if (db.findMembership mem.organization_id mem.user_id).isSome = true then
    Except.error PgError.unique_violation
  else
    Except.ok { db with organization_members := db.organization_members ++ [mem] }

/-- Server function addOrganizationMember. The declared TypeScript input type
restricts role to admin or member, but the handler performs no runtime
validation of the deserialized value, so role ranges over the whole enum
here. The target-existence check is a user_profiles select under the
caller's session, so it only sees profiles the RLS exposes (self or a fellow
organization member). The insert runs under the effective HEA-30 policy: a
23505 unique violation is mapped to AlreadyMember, any other store error
(including the 42501 WITH CHECK violation for a non-owner inserting an owner
row) is surfaced as the generic add-member failure. -/
def addOrganizationMember (db : DB) (auth : Option Nat) (orgId userId : Nat)
    (role : Role) (newId : Nat) : Except OrgError (OrganizationMember × DB) :=
  match auth with
  | none => Except.error OrgError.Unauthorized
  | some uid =>
      match db.findMembership orgId uid with
      | none => Except.error OrgError.NotAMember
      | some callerM =>
          if callerM.role ≠ Role.owner ∧ callerM.role ≠ Role.admin then
            Except.error OrgError.OnlyAdminsCanAddMembers
          else if ¬ ((db.findProfile userId).isSome = true ∧
                     canViewProfile db uid userId = true) then
            Except.error OrgError.TargetUserNotFound
          else
            match insertOrganizationMember db uid
                { id := newId, organization_id := orgId, user_id := userId,
                  role := role } with
            | Except.error PgError.unique_violation =>
                Except.error OrgError.AlreadyMember
            | Except.error _ => Except.error OrgError.StoreFailure
            | Except.ok db2 =>
                Except.ok ({ id := newId, organization_id := orgId,
                             user_id := userId, role := role }, db2)

/-- Server function updateMemberRole. The RLS policy Admins can update members
permits every update this function attempts: policy subqueries read the
pre-update snapshot, so in particular an owner demoting their own row passes
both USING and WITH CHECK. -/
def updateMemberRole (db : DB) (auth : Option Nat) (memberId : Nat) (newRole : Role) :
    Except OrgError (OrganizationMember × DB) :=
  match auth with
  | none => Except.error OrgError.Unauthorized
  | some uid =>
      match db.findMembershipById memberId with
      | none => Except.error OrgError.MemberNotFound
      | some target =>
          match db.findMembership target.organization_id uid with
          | none => Except.error OrgError.NotAMember
          | some callerM =>
              if callerM.role = Role.member then
                Except.error OrgError.NoPermissionChangeRoles
              else if callerM.role = Role.admin ∧ target.role ≠ Role.member then
                Except.error OrgError.NoPermissionModifyMemberRole
              else if callerM.role = Role.admin ∧ newRole = Role.owner then
                Except.error OrgError.OnlyOwnersCanTransferOwnership
              else if newRole = Role.owner ∧ callerM.role ≠ Role.owner then
                Except.error OrgError.OnlyOwnersCanTransferOwnership
              else
                Except.ok ({ target with role := newRole },
                  { db with
                    organization_members := db.organization_members.map (fun m =>
                      if m.id == memberId then { m with role := newRole } else m) })

/-- Server function removeMember. When the target row belongs to the caller
(isSelf), the handler performs no authorization check at all before the
delete, and the RLS delete policy disjunct user_id = auth.uid() admits the
row, so the delete proceeds for every caller role. The delete statement does
not touch user_profiles. -/
def removeMember (db : DB) (auth : Option Nat) (memberId : Nat) : Except OrgError DB :=
  match auth with
  | none => Except.error OrgError.Unauthorized
  | some uid =>
      match db.findMembershipById memberId with
      | none => Except.error OrgError.MemberNotFound
      | some target =>
          match db.findMembership target.organization_id uid with
          | none => Except.error OrgError.NotAMember
          | some callerM =>
              let isSelf : Bool := target.user_id == uid
              if isSelf = false ∧ callerM.role = Role.member then
                Except.error OrgError.NoPermissionRemoveMembers
              else if isSelf = false ∧ callerM.role = Role.admin ∧ target.role ≠ Role.member then
                Except.error OrgError.NoPermissionRemoveThisMember
              else if isSelf = false ∧ target.role = Role.owner then
                Except.error OrgError.CannotRemoveOwner
              else
                Except.ok { db with
                  organization_members :=
                    db.organization_members.filter (fun m => !(m.id == memberId)) }

/-- State change committed by a successful leave_organization call: delete the
caller's membership rows for the organization and clear the profile pointer
when it equals that organization. -/
def applyLeave (db : DB) (uid orgId : Nat) : DB :=
  let members := db.organization_members.filter (fun m =>
    !(m.organization_id == orgId && m.user_id == uid))
  let profiles :=
    if profilePointer db uid = some orgId then
      db.user_profiles.map (fun p =>
        if p.id == uid then { p with current_organization_id := none } else p)
    else
      db.user_profiles
  { db with organization_members := members, user_profiles := profiles }

/-- RPC public.leave_organization (migration 20240324): lock and read the
caller's membership row; absent row raises the not-a-member exception; an
owner locks and counts all membership rows of the organization and a count
above 1 raises the transfer-ownership exception; otherwise delete the row and
clear the profile pointer if it referenced this organization. A raised
exception rolls the transaction back, so the error result carries no state. -/
def leave_organization (db : DB) (uid orgId : Nat) : Except PgError DB :=
  match db.findMembership orgId uid with
  | none => Except.error (PgError.raised notMemberMsg)
  | some m =>
      if m.role = Role.owner ∧ 1 < db.memberCount orgId then
        Except.error (PgError.raised mustTransferMsg)
      else
        Except.ok (applyLeave db uid orgId)

/-- Server function leaveOrganization: auth check, then the RPC, mapping the
raised exception messages back to domain errors by substring. -/
def leaveOrganization (db : DB) (auth : Option Nat) (orgId : Nat) : Except OrgError DB :=
  match auth with
  | none => Except.error OrgError.Unauthorized
  | some uid =>
      match leave_organization db uid orgId with
      | Except.ok db2 => Except.ok db2
      | Except.error e =>
          let msg := pgErrorMessage e
          if msgIncludes msg transferPat = true then
            Except.error OrgError.MustTransferOwnership
          else if msgIncludes msg notMemberPat = true then
            Except.error OrgError.NotAMember
          else if msgIncludes msg notAuthPat = true then
            Except.error OrgError.Unauthorized
          else
            Except.error OrgError.StoreFailure

/-- Server function deleteOrganization, with the store-level cascades: the
organization row and its membership rows and organization todos are deleted
(ON DELETE CASCADE), and profile pointers referencing the organization are
nulled (ON DELETE SET NULL on user_profiles.current_organization_id). -/
def deleteOrganization (db : DB) (auth : Option Nat) (orgId : Nat) : Except OrgError DB :=
  match auth with
  | none => Except.error OrgError.Unauthorized
  | some uid =>
      match db.findMembership orgId uid with
      | none => Except.error OrgError.NotAMember
      | some m =>
          if m.role ≠ Role.owner then
            Except.error OrgError.OnlyOwnerCanDeleteOrganization
          else
            Except.ok
              { organizations := db.organizations.filter (fun o => !(o.id == orgId))
                organization_members := db.organization_members.filter (fun mm =>
                  !(mm.organization_id == orgId))
                user_profiles := db.user_profiles.map (fun p =>
                  if p.current_organization_id == some orgId then
                    { p with current_organization_id := none }
                  else p)
                todos := db.todos.filter (fun t => !(t.organization_id == some orgId)) }

/-- Message raised by prevent_todo_org_change for the source organization. -/
def sourceAdminMsg : String := "Cannot move todo: you must be an admin of the source organization"

/-- Message raised by prevent_todo_org_change for the target organization. -/
def targetAdminMsg : String := "Cannot move todo: you must be an admin of the target organization"

/-- Message of a row-level security WITH CHECK violation on todos. -/
def rlsCheckMsg : String := "new row violates row-level security policy for table todos"

/-- RLS USING clause of Members can update organization todos: the caller must
be the creator and a member of the row's organization (or the row is
personal). -/
def todosUpdateUsing (db : DB) (uid : Nat) (t : Todo) : Bool :=
  t.user_id == uid &&
  (match t.organization_id with
   | some o => is_organization_member db uid o
   | none => true)

/-- RLS WITH CHECK clause of Members can update organization todos, evaluated
on the new row. -/
def todosUpdateCheck (db : DB) (uid : Nat) (t : Todo) : Bool :=
  t.user_id == uid &&
  (match t.organization_id with
   | some o => is_organization_member db uid o
   | none => true)

/-- Convenience reading of the trigger guard: admin of the organization value,
with a null value imposing no requirement (matching the IS NOT NULL guards in
prevent_todo_org_change). -/
def adminOfValue (db : DB) (uid : Nat) : Option Nat → Bool
  | some o => is_organization_admin db uid o
  | none => true

/-- Trigger function public.prevent_todo_org_change: when the update changes
organization_id (IS DISTINCT FROM), raise unless the caller is admin of the
non-null old value and of the non-null new value. -/
def prevent_todo_org_change (db : DB) (uid : Nat) (oldOrg newOrg : Option Nat) :
    Except PgError Unit :=
  if oldOrg = newOrg then
    Except.ok ()
  else if (match oldOrg with
           | some o => !(is_organization_admin db uid o)
           | none => false) = true then
    Except.error (PgError.raised sourceAdminMsg)
  else if (match newOrg with
           | some o => !(is_organization_admin db uid o)
           | none => false) = true then
    Except.error (PgError.raised targetAdminMsg)
  else
    Except.ok ()

/-- An UPDATE todos SET organization_id = newOrg WHERE id = todoId issued by
uid: the RLS USING clause filters the row (an invisible row updates nothing
and raises nothing), then the BEFORE UPDATE trigger runs, then WITH CHECK is
evaluated on the new row. -/
def updateTodoOrganization (db : DB) (uid todoId : Nat) (newOrg : Option Nat) :
    Except PgError DB :=
  match db.todos.find? (fun t => t.id == todoId) with
  | none => Except.ok db
  | some t =>
      if todosUpdateUsing db uid t = false then
        Except.ok db
      else
        match prevent_todo_org_change db uid t.organization_id newOrg with
        | Except.error e => Except.error e
        | Except.ok _ =>
            let t2 : Todo := { t with organization_id := newOrg }
            if todosUpdateCheck db uid t2 = false then
              Except.error (PgError.raised rlsCheckMsg)
            else
              Except.ok { db with
                todos := db.todos.map (fun x => if x.id == todoId then t2 else x) }

/-- True when the organization has at least one membership row with role
owner. -/
def orgHasOwner (db : DB) (orgId : Nat) : Bool :=
  db.organization_members.any (fun m => m.organization_id == orgId && m.role == Role.owner)

/-- The spec invariant: every organization with at least one membership row
has at least one owner row. -/
def ownerInvariant (db : DB) : Bool :=
  db.organization_members.all (fun m => orgHasOwner db m.organization_id)

/-- Organization used by the concrete states below. -/
def exOrg1 : Organization :=
  { id := 1, name := "Acme", slug := "acme", logo_url := none }

/-- Second organization used by the todo re-parenting state. -/
def exOrg2 : Organization :=
  { id := 2, name := "Beta Corp", slug := "beta-corp", logo_url := none }

/-- State with organization 1 owned by user 10, with user 20 as plain member;
both profiles point at organization 1. -/
def exDB1 : DB :=
  { organizations := [exOrg1]
    organization_members :=
      [ { id := 1, organization_id := 1, user_id := 10, role := Role.owner }
      , { id := 2, organization_id := 1, user_id := 20, role := Role.member } ]
    user_profiles :=
      [ { id := 10, current_organization_id := some 1 }
      , { id := 20, current_organization_id := some 1 } ]
    todos := [] }

/-- exDB1 after the owner (user 10) deleted their own membership row. -/
def exDB1AfterOwnerGone : DB :=
  { organizations := [exOrg1]
    organization_members :=
      [ { id := 2, organization_id := 1, user_id := 20, role := Role.member } ]
    user_profiles :=
      [ { id := 10, current_organization_id := some 1 }
      , { id := 20, current_organization_id := some 1 } ]
    todos := [] }

/-- exDB1 after user 20's membership row was deleted; note both profiles are
untouched, so user 20's pointer still references organization 1. -/
def exDB1AfterMemberGone : DB :=
  { organizations := [exOrg1]
    organization_members :=
      [ { id := 1, organization_id := 1, user_id := 10, role := Role.owner } ]
    user_profiles :=
      [ { id := 10, current_organization_id := some 1 }
      , { id := 20, current_organization_id := some 1 } ]
    todos := [] }

/-- State with organization 1 owned by user 10 and administered by user 11,
and a signed-up user 30 who is not a member of organization 1 but shares
organization 2 with user 11 (so user 11 can see user 30's profile). -/
def exDB3 : DB :=
  { organizations := [exOrg1, exOrg2]
    organization_members :=
      [ { id := 1, organization_id := 1, user_id := 10, role := Role.owner }
      , { id := 2, organization_id := 1, user_id := 11, role := Role.admin }
      , { id := 3, organization_id := 2, user_id := 11, role := Role.member }
      , { id := 4, organization_id := 2, user_id := 30, role := Role.member } ]
    user_profiles :=
      [ { id := 10, current_organization_id := some 1 }
      , { id := 11, current_organization_id := some 1 }
      , { id := 30, current_organization_id := some 2 } ]
    todos := [] }

/-- State with organization 1 having exactly two membership rows, both with
role owner (users 10 and 20). -/
def exDB5 : DB :=
  { organizations := [exOrg1]
    organization_members :=
      [ { id := 1, organization_id := 1, user_id := 10, role := Role.owner }
      , { id := 2, organization_id := 1, user_id := 20, role := Role.owner } ]
    user_profiles :=
      [ { id := 10, current_organization_id := some 1 }
      , { id := 20, current_organization_id := some 1 } ]
    todos := [] }

/-- State where user 20 has a null profile pointer but a membership in
organization 1, and user 21 has a pointer to organization 2 with no membership
backing it. -/
def exDB7 : DB :=
  { organizations := [exOrg1]
    organization_members :=
      [ { id := 1, organization_id := 1, user_id := 20, role := Role.member } ]
    user_profiles :=
      [ { id := 20, current_organization_id := none }
      , { id := 21, current_organization_id := some 2 } ]
    todos := [] }

/-- State where user 40 is admin of both organizations 1 and 2 and created
todo 1 inside organization 1. -/
def exDB9 : DB :=
  { organizations := [exOrg1, exOrg2]
    organization_members :=
      [ { id := 1, organization_id := 1, user_id := 40, role := Role.admin }
      , { id := 2, organization_id := 2, user_id := 40, role := Role.admin } ]
    user_profiles := [ { id := 40, current_organization_id := some 1 } ]
    todos := [ { id := 1, user_id := 40, organization_id := some 1 } ]
    }

/-- State with organization 1 having user 10 as sole owner and sole member. -/
def exDB10 : DB :=
  { organizations := [exOrg1]
    organization_members :=
      [ { id := 1, organization_id := 1, user_id := 10, role := Role.owner } ]
    user_profiles := [ { id := 10, current_organization_id := some 1 } ]
    todos := [] }

/-- The empty store. -/
def exDB0 : DB :=
  { organizations := [], organization_members := [], user_profiles := [], todos := [] }

/-- Well-formed creation input used by the concrete instantiations. -/
def exInput : CreateOrgInput :=
  { name := "Acme", slug := "acme", logo_url := none }

/-- Creation input with a one-character name, rejected by
CreateOrganizationSchema. -/
def exBadInput : CreateOrgInput :=
  { name := "A", slug := "acme", logo_url := none }

/-- Helper: a list containing two different elements has more than one
element. -/
theorem one_lt_length_of_two_mem {α : Type} {l : List α} {x y : α}
    (hx : x ∈ l) (hy : y ∈ l) (hxy : x ≠ y) : 1 < l.length := by
  match l with
  | [] => cases hx
  | [a] =>
      rw [List.mem_singleton] at hx hy
      exact absurd (hx.trans hy.symm) hxy
  | a :: b :: rest =>
      simp only [List.length_cons]
      omega

/-- Helper: searching user_profiles by id commutes with a row transformation
that preserves the id column. -/
theorem find?_map_profile_id (ps : List UserProfile) (uid : Nat)
    (g : UserProfile → UserProfile) (hg : ∀ p, (g p).id = p.id) :
    (ps.map g).find? (fun p => p.id == uid) =
      (ps.find? (fun p => p.id == uid)).map g := by
  induction ps with
  | nil => rfl
  | cons p rest ih =>
      simp only [List.map_cons, List.find?_cons]
      rw [hg p]
      cases h : (p.id == uid) <;> simp [h, ih]

/-- Helper: after upsertProfileCurrent, the profile row for uid exists and
holds the new pointer. -/
theorem find?_upsertProfileCurrent (ps : List UserProfile) (uid orgId : Nat) :
    (upsertProfileCurrent ps uid orgId).find? (fun p => p.id == uid) =
      some { id := uid, current_organization_id := some orgId } := by
  unfold upsertProfileCurrent
  by_cases h : ps.any (fun p => p.id == uid) = true
  · rw [if_pos h]
    rw [find?_map_profile_id ps uid _ (fun p => by
      by_cases hp : (p.id == uid) = true <;> simp [hp])]
    have hsome : (ps.find? (fun p => p.id == uid)).isSome := by
      rw [List.find?_isSome]
      obtain ⟨x, hx, hpx⟩ := List.any_eq_true.mp h
      exact ⟨x, hx, hpx⟩
    obtain ⟨p1, hp1⟩ := Option.isSome_iff_exists.mp hsome
    have hid : p1.id = uid := by
      have := List.find?_some hp1
      simpa using this
    rw [hp1]
    simp [hid]
  · rw [if_neg h]
    have hnone : ps.find? (fun p => p.id == uid) = none := by
      rw [List.find?_eq_none]
      intro x hx
      intro hpx
      exact h (List.any_eq_true.mpr ⟨x, hx, hpx⟩)
    rw [List.find?_append, hnone]
    simp

/-- Helper: an admin membership row is in particular a membership row. -/
theorem member_of_admin (db : DB) (uid o : Nat)
    (h : is_organization_admin db uid o = true) :
    is_organization_member db uid o = true := by
  unfold is_organization_admin at h
  unfold is_organization_member
  cases hf : db.findMembership o uid with
  | none => rw [hf] at h; cases h
  | some m => simp [hf]

/-- Helper: when the organization has exactly one membership row and the
caller holds a membership row there, applyLeave leaves the organization with
zero membership rows. -/
theorem memberCount_applyLeave_zero (db : DB) (uid orgId : Nat)
    (m : OrganizationMember)
    (hm : db.findMembership orgId uid = some m)
    (hcount : db.memberCount orgId = 1) :
    (applyLeave db uid orgId).memberCount orgId = 0 := by
  have hpm := List.find?_some hm
  have hmem := List.mem_of_find?_eq_some hm
  simp only [Bool.and_eq_true, beq_iff_eq] at hpm
  unfold DB.memberCount at hcount
  obtain ⟨m0, hm0⟩ := List.length_eq_one.mp hcount
  have hmm : m ∈ db.organization_members.filter
      (fun x => x.organization_id == orgId) := by
    rw [List.mem_filter]
    exact ⟨hmem, by simp [hpm.1]⟩
  rw [hm0, List.mem_singleton] at hmm
  unfold applyLeave DB.memberCount
  simp only [List.filter_filter]
  have hempty : (db.organization_members.filter
      (fun a => (a.organization_id == orgId) &&
        !(a.organization_id == orgId && a.user_id == uid))) = [] := by
    rw [List.filter_eq_nil_iff]
    intro a ha hcon
    simp only [Bool.and_eq_true, Bool.not_eq_true', Bool.and_eq_false_iff] at hcon
    have haf : a ∈ db.organization_members.filter
        (fun x => x.organization_id == orgId) := by
      rw [List.mem_filter]
      exact ⟨ha, hcon.1⟩
    rw [hm0, List.mem_singleton] at haf
    rcases hcon.2 with hbad | hbad
    · simp [hcon.1] at hbad
    · rw [haf, ← hmm] at hbad
      simp [hpm.2] at hbad
  rw [hempty]
  rfl

/-- Helper: the trigger guard written through adminOfValue. -/
theorem prevent_todo_org_change_eq (db : DB) (uid : Nat) (v w : Option Nat) :
    prevent_todo_org_change db uid v w =
      if v = w then Except.ok ()
      else if adminOfValue db uid v = false then
        Except.error (PgError.raised sourceAdminMsg)
      else if adminOfValue db uid w = false then
        Except.error (PgError.raised targetAdminMsg)
      else Except.ok () := by
  unfold prevent_todo_org_change
  by_cases hvw : v = w
  · simp [hvw]
  · rcases v with _ | o1 <;> rcases w with _ | o2 <;>
      simp [hvw, adminOfValue]

/-- C1: the claimed invariant (every organization with at least one
membership row has at least one owner row) is not preserved by removeMember.
Starting from exDB1, which satisfies the invariant (organization 1 has owner
user 10 and member user 20), the owner removes their own membership row: the
self-removal path of removeMember performs no authorization check (the
comment in the source defers owner protection to a check that exists nowhere,
and the RLS delete policy admits any self-removal), so the call succeeds and
leaves organization 1 with a membership row but no owner row. -/
theorem C1_owner_invariant_not_preserved :
    ownerInvariant exDB1 = true ∧
    removeMember exDB1 (some 10) 1 = Except.ok exDB1AfterOwnerGone ∧
    ownerInvariant exDB1AfterOwnerGone = false := by
  refine ⟨by decide, by decide, by decide⟩

/-- C2: self-removal by an owner through removeMember is claimed to fail with
CannotRemoveOwner with the row kept; in the code every self-removal skips the
authorization checks, so the owner of organization 1 (user 10, membership row
1) deletes their own row successfully and the row is gone. -/
theorem C2_owner_self_removal_succeeds :
    removeMember exDB1 (some 10) 1 = Except.ok exDB1AfterOwnerGone ∧
    exDB1AfterOwnerGone.findMembershipById 1 = none := by
  refine ⟨by decide, by decide⟩

/-- C3: a caller whose role in the organization is admin (not owner) cannot
create an owner membership. Every such attempt fails, and an error result
carries no state, so no membership row is created. When the target profile is
visible to the caller, the rejection is the WITH CHECK violation of the
effective Admins can add members policy (the HEA-30 fix in seed.sql adds role
validation: role must not be owner unless is_organization_owner holds), which
the server surfaces as the generic add-member failure; and at the store level
an owner-role insert is admitted only for a caller who is an owner of that
organization. -/
theorem C3_admin_cannot_insert_owner (db : DB) (uid orgId userId newId : Nat)
    (cm : OrganizationMember)
    (hc : db.findMembership orgId uid = some cm)
    (hrole : cm.role = Role.admin) :
    (∀ m db2, addOrganizationMember db (some uid) orgId userId Role.owner newId ≠
        Except.ok (m, db2)) ∧
    ((db.findProfile userId).isSome = true → canViewProfile db uid userId = true →
      addOrganizationMember db (some uid) orgId userId Role.owner newId =
        Except.error OrgError.StoreFailure) ∧
    (∀ v : Nat, ∀ m : OrganizationMember, ∀ db2 : DB, m.role = Role.owner →
      insertOrganizationMember db v m = Except.ok db2 →
      is_organization_owner db v m.organization_id = true) := by
  have hnotown : is_organization_owner db uid orgId = false := by
    unfold is_organization_owner
    rw [hc]
    simp [hrole]
  have hins : insertOrganizationMember db uid
      { id := newId, organization_id := orgId, user_id := userId,
        role := Role.owner } = Except.error PgError.rls_violation := by
    unfold insertOrganizationMember
    rw [if_pos]
    intro hand
    rcases hand.2 with hbad | hbad
    · exact hbad rfl
    · rw [hnotown] at hbad
      cases hbad
  refine ⟨?_, ?_, ?_⟩
  · intro m db2 hcon
    simp only [addOrganizationMember, hc] at hcon
    rw [if_neg (fun h => h.2 hrole)] at hcon
    by_cases hv : ((db.findProfile userId).isSome = true ∧
        canViewProfile db uid userId = true)
    · rw [if_neg (fun hno => hno hv), hins] at hcon
      cases hcon
    · rw [if_pos hv] at hcon
      cases hcon
  · intro hp hview
    simp only [addOrganizationMember, hc]
    rw [if_neg (fun h => h.2 hrole)]
    rw [if_neg (fun hno => hno ⟨hp, hview⟩)]
    rw [hins]
  · intro v m db2 hrolem h
    by_cases hcond : (is_organization_admin db v m.organization_id = true ∧
        (m.role ≠ Role.owner ∨ is_organization_owner db v m.organization_id = true))
    · rcases hcond.2 with hbad | hgood
      · exact absurd hrolem hbad
      · exact hgood
    · unfold insertOrganizationMember at h
      rw [if_pos hcond] at h
      cases h

/-- C3 witness: in exDB3 the admin of organization 1 (user 11) attempts to
insert user 30, whose profile is visible through their shared organization 2,
with role owner: the effective policy rejects the insert and the server
surfaces the store failure. -/
theorem C3_admin_cannot_insert_owner_witness :
    addOrganizationMember exDB3 (some 11) 1 30 Role.owner 5 =
      Except.error OrgError.StoreFailure :=
  (C3_admin_cannot_insert_owner exDB3 11 1 30 5
    { id := 2, organization_id := 1, user_id := 11, role := Role.admin }
    (by decide) rfl).2.1 (by decide) (by decide)

/-- C10: createOrganization runs CreateOrganizationSchema.parse before
creating the client or reading the session, so a malformed input (name or
slug violating the schema) fails with the validation error for every
principal, including an unauthenticated one, and for every store state, and
the error result carries no writes. -/
theorem C10_validation_precedes_auth (db : DB) (auth : Option Nat)
    (input : CreateOrgInput) (newOrgId newMemId : Nat)
    (hbad : validCreateOrganizationInput input = false) :
    createOrganization db auth input newOrgId newMemId =
      Except.error OrgError.ValidationError := by
  unfold createOrganization
  rw [if_neg (by simp [hbad])]

/-- C10 witness: the one-character name input is rejected with the validation
error even with no authenticated principal and a nonempty store. -/
theorem C10_validation_precedes_auth_witness :
    validCreateOrganizationInput exBadInput = false ∧
    createOrganization exDB1 none exBadInput 9 9 =
      Except.error OrgError.ValidationError :=
  ⟨by decide, C10_validation_precedes_auth exDB1 none exBadInput 9 9 (by decide)⟩

/-- C4: leave behaviour for a principal with some authenticated uid: when no
membership row for (organization, principal) exists the call fails with
NotAMember; when the principal's row has role owner, a membership count above
1 fails with MustTransferOwnership and an error result carries no state
change (rollback); a count of exactly 1 succeeds and the organization ends
with zero membership rows. -/
theorem C4_leaveOrganization_owner_protocol (db : DB) (uid orgId : Nat) :
    (db.findMembership orgId uid = none →
      leaveOrganization db (some uid) orgId = Except.error OrgError.NotAMember) ∧
    (∀ m, db.findMembership orgId uid = some m → m.role = Role.owner →
      (1 < db.memberCount orgId →
        leaveOrganization db (some uid) orgId =
          Except.error OrgError.MustTransferOwnership) ∧
      (db.memberCount orgId = 1 →
        leaveOrganization db (some uid) orgId = Except.ok (applyLeave db uid orgId) ∧
        (applyLeave db uid orgId).memberCount orgId = 0)) := by
  refine ⟨?_, ?_⟩
  · intro h
    simp only [leaveOrganization, leave_organization, h]
    decide
  · intro m hm hrole
    refine ⟨?_, ?_⟩
    · intro hcount
      simp only [leaveOrganization, leave_organization, hm]
      rw [if_pos ⟨hrole, hcount⟩]
      decide
    · intro hcount
      refine ⟨?_, memberCount_applyLeave_zero db uid orgId m hm hcount⟩
      simp only [leaveOrganization, leave_organization, hm]
      rw [if_neg (fun hand => by omega)]

/-- C4 witness: the sole owner of the 1-member organization 1 leaves
successfully and the organization ends with zero membership rows. -/
theorem C4_leaveOrganization_owner_protocol_witness :
    leaveOrganization exDB10 (some 10) 1 = Except.ok (applyLeave exDB10 10 1) ∧
    (applyLeave exDB10 10 1).memberCount 1 = 0 :=
  ((C4_leaveOrganization_owner_protocol exDB10 10 1).2
    { id := 1, organization_id := 1, user_id := 10, role := Role.owner }
    (by decide) rfl).2 (by decide)

/-- C5 counterexample: in exDB5 organization 1 has exactly two membership
rows, both owners (users 10 and 20). Contrary to the claimed outcome of
exactly one success and one failure, both leave calls fail with
MustTransferOwnership: since an error makes no state change, this covers both
serial orders of the two locked transactions, so zero successes occur in
every interleaving the row locks admit. -/
theorem C5_two_owner_leaves_no_success :
    leaveOrganization exDB5 (some 10) 1 = Except.error OrgError.MustTransferOwnership ∧
    leaveOrganization exDB5 (some 20) 1 = Except.error OrgError.MustTransferOwnership := by
  refine ⟨by decide, by decide⟩

/-- C5 amended: for any state in which two distinct principals each hold an
owner membership row of the organization, both leave calls fail with
MustTransferOwnership and make no state change. The FOR UPDATE locks in
leave_organization serialize the two transactions, and the failing first
transaction changes nothing, so the second serialized call runs against the
same state: in no admissible interleaving does either call succeed, and in
particular the organization is never left without an owner by this pair of
calls. -/
theorem C5_co_owner_leaves_both_rejected (db : DB) (orgId a b : Nat)
    (ma mb : OrganizationMember)
    (ha : db.findMembership orgId a = some ma)
    (hb : db.findMembership orgId b = some mb)
    (hra : ma.role = Role.owner) (hrb : mb.role = Role.owner)
    (hab : a ≠ b) :
    leaveOrganization db (some a) orgId = Except.error OrgError.MustTransferOwnership ∧
    leaveOrganization db (some b) orgId = Except.error OrgError.MustTransferOwnership := by
  have hpa := List.find?_some ha
  have hpb := List.find?_some hb
  simp only [Bool.and_eq_true, beq_iff_eq] at hpa hpb
  have hmanb : ma ≠ mb := by
    intro hcon
    rw [hcon] at hpa
    exact hab (hpa.2.symm.trans hpb.2)
  have hcnt : 1 < db.memberCount orgId := by
    unfold DB.memberCount
    refine one_lt_length_of_two_mem ?_ ?_ hmanb
    · rw [List.mem_filter]
      exact ⟨List.mem_of_find?_eq_some ha, by simp [hpa.1]⟩
    · rw [List.mem_filter]
      exact ⟨List.mem_of_find?_eq_some hb, by simp [hpb.1]⟩
  constructor
  · simp only [leaveOrganization, leave_organization, ha]
    rw [if_pos ⟨hra, hcnt⟩]
    decide
  · simp only [leaveOrganization, leave_organization, hb]
    rw [if_pos ⟨hrb, hcnt⟩]
    decide

/-- C5 witness: the amended theorem instantiated at exDB5 with the co-owners
taken in the other order. -/
theorem C5_co_owner_leaves_both_rejected_witness :
    leaveOrganization exDB5 (some 20) 1 = Except.error OrgError.MustTransferOwnership ∧
    leaveOrganization exDB5 (some 10) 1 = Except.error OrgError.MustTransferOwnership :=
  C5_co_owner_leaves_both_rejected exDB5 1 20 10
    { id := 2, organization_id := 1, user_id := 20, role := Role.owner }
    { id := 1, organization_id := 1, user_id := 10, role := Role.owner }
    (by decide) (by decide) rfl rfl (by decide)

/-- C6: for an authenticated principal, valid input and a fresh organization
id, createOrganization behaves per the claim: when the slug is already taken
the store unique constraint itself rejects the insert (the model performs no
prior existence read: the RPC branches only on the constraint) and the 23505
error is mapped to SlugConflict with no surviving write (an error result
carries no state); when the slug is free, the single transaction inserts the
organization row, inserts the owner membership row for the principal and
upserts the profile with current_organization_id set to the new id. -/
theorem C6_createOrganization_atomic (db : DB) (uid newOrgId newMemId : Nat)
    (input : CreateOrgInput)
    (hval : validCreateOrganizationInput input = true)
    (hfresh : ∀ o ∈ db.organizations, o.id ≠ newOrgId) :
    (db.slugTaken input.slug = true →
      createOrganization db (some uid) input newOrgId newMemId =
        Except.error OrgError.SlugConflict) ∧
    (db.slugTaken input.slug = false →
      ∃ db2,
        createOrganization db (some uid) input newOrgId newMemId =
          Except.ok
            ({ id := newOrgId, name := input.name, slug := input.slug,
               logo_url := input.logo_url }, db2) ∧
        db2.organizations = db.organizations ++
          [{ id := newOrgId, name := input.name, slug := input.slug,
             logo_url := input.logo_url }] ∧
        db2.organization_members = db.organization_members ++
          [{ id := newMemId, organization_id := newOrgId, user_id := uid,
             role := Role.owner }] ∧
        profilePointer db2 uid = some newOrgId ∧
        db2.todos = db.todos) := by
  have hv2 : validName input.name = true ∧ validSlug input.slug = true := by
    have h := hval
    unfold validCreateOrganizationInput at h
    simpa [Bool.and_eq_true] using h
  constructor
  · intro hslug
    simp only [createOrganization, create_organization_with_owner]
    rw [if_pos hval]
    rw [if_neg (fun hno => hno hv2)]
    rw [if_pos hslug]
  · intro hslug
    refine ⟨{ db with
        organizations := db.organizations ++
          [{ id := newOrgId, name := input.name, slug := input.slug,
             logo_url := input.logo_url }]
        organization_members := db.organization_members ++
          [{ id := newMemId, organization_id := newOrgId, user_id := uid,
             role := Role.owner }]
        user_profiles := upsertProfileCurrent db.user_profiles uid newOrgId },
      ?_, rfl, rfl, ?_, rfl⟩
    · simp only [createOrganization, create_organization_with_owner]
      rw [if_pos hval]
      rw [if_neg (fun hno => hno hv2)]
      rw [if_neg (by simp [hslug])]
      have hnone : db.organizations.find? (fun o => o.id == newOrgId) = none := by
        rw [List.find?_eq_none]
        intro x hx
        simp [hfresh x hx]
      simp [List.find?_append, hnone]
    · unfold profilePointer DB.findProfile
      rw [find?_upsertProfileCurrent]
      rfl

/-- C6 witness: creating organization Acme in the empty store as user 10
performs the three writes. -/
theorem C6_createOrganization_atomic_witness :
    ∃ db2,
      createOrganization exDB0 (some 10) exInput 1 2 =
        Except.ok
          ({ id := 1, name := "Acme", slug := "acme", logo_url := none }, db2) ∧
      db2.organizations = exDB0.organizations ++
        [{ id := 1, name := "Acme", slug := "acme", logo_url := none }] ∧
      db2.organization_members = exDB0.organization_members ++
        [{ id := 2, organization_id := 1, user_id := 10, role := Role.owner }] ∧
      profilePointer db2 10 = some 1 ∧
      db2.todos = exDB0.todos :=
  (C6_createOrganization_atomic exDB0 10 1 2 exInput (by decide)
    (by intro o ho; cases ho)).2 (by decide)

/-- C7 counterexample: get_current_organization_id does not behave as
claimed. User 20 has a null profile pointer yet the function returns
organization 1 (the COALESCE fallback to the first membership row) instead of
none; user 21 has a pointer to organization 2 with no membership row backing
it, yet the function returns organization 2 instead of none. -/
theorem C7_active_organization_counterexample :
    (profilePointer exDB7 20 = none ∧
      get_current_organization_id exDB7 20 = some 1) ∧
    (profilePointer exDB7 21 = some 2 ∧
      exDB7.findMembership 2 21 = none ∧
      get_current_organization_id exDB7 21 = some 2) := by
  refine ⟨⟨by decide, by decide⟩, by decide, by decide, by decide⟩

/-- C7 amended: get_current_organization_id returns the profile pointer
whenever it is non-null, without validating that a membership row backs it;
when the pointer is null (or the profile row is absent) it falls back to the
organization of the first membership row of the principal; it returns none
exactly when the pointer is null and the principal has no membership row at
all. -/
theorem C7_active_organization_amended (db : DB) (uid : Nat) :
    (∀ o, profilePointer db uid = some o →
      get_current_organization_id db uid = some o) ∧
    (profilePointer db uid = none →
      get_current_organization_id db uid =
        (db.organization_members.find? (fun m => m.user_id == uid)).map
          (fun m => m.organization_id)) ∧
    (get_current_organization_id db uid = none ↔
      profilePointer db uid = none ∧
      ∀ m ∈ db.organization_members, m.user_id ≠ uid) := by
  refine ⟨?_, ?_, ?_⟩
  · intro o h
    simp only [get_current_organization_id, h]
  · intro h
    simp only [get_current_organization_id, h]
  · cases hp : profilePointer db uid with
    | some o => simp [get_current_organization_id, hp]
    | none =>
        simp only [get_current_organization_id, hp, true_and]
        rw [Option.map_eq_none', List.find?_eq_none]
        simp

/-- C7 witness: the amended theorem instantiated at exDB7: user 21's stale
pointer to organization 2 is returned as-is. -/
theorem C7_active_organization_amended_witness :
    get_current_organization_id exDB7 21 = some 2 :=
  (C7_active_organization_amended exDB7 21).1 2 (by decide)

/-- Helper: the user_profiles component produced by applyLeave. -/
theorem applyLeave_user_profiles (db : DB) (uid orgId : Nat) :
    (applyLeave db uid orgId).user_profiles =
      if profilePointer db uid = some orgId then
        db.user_profiles.map (fun p =>
          if p.id == uid then { p with current_organization_id := none } else p)
      else db.user_profiles := rfl

/-- C8 counterexample: the owner (user 10) removes user 20's membership row
via removeMember; the row is deleted but user 20's profile still has
current_organization_id = 1: removeMember touches no profile row, and the
store set-null trigger fires only on organization deletion, not membership
deletion. -/
theorem C8_removeMember_leaves_stale_pointer :
    removeMember exDB1 (some 10) 2 = Except.ok exDB1AfterMemberGone ∧
    exDB1AfterMemberGone.findMembership 1 20 = none ∧
    profilePointer exDB1AfterMemberGone 20 = some 1 := by
  refine ⟨by decide, by decide, by decide⟩

/-- C8 amended: the pointer clearing happens only on two of the three paths.
removeMember never modifies user_profiles (so a removed principal's pointer
can keep referencing the organization); a successful leave_organization
leaves the calling principal's pointer different from the left organization
and does not touch any other principal's pointer; deleteOrganization nulls
every pointer referencing the deleted organization (the ON DELETE SET NULL
foreign key). -/
theorem C8_pointer_clearing_per_path :
    (∀ db auth memId db2, removeMember db auth memId = Except.ok db2 →
      db2.user_profiles = db.user_profiles) ∧
    (∀ db uid orgId db2, leave_organization db uid orgId = Except.ok db2 →
      profilePointer db2 uid ≠ some orgId ∧
      ∀ v, v ≠ uid → profilePointer db2 v = profilePointer db v) ∧
    (∀ db auth orgId db2, deleteOrganization db auth orgId = Except.ok db2 →
      ∀ p ∈ db2.user_profiles, p.current_organization_id ≠ some orgId) := by
  refine ⟨?_, ?_, ?_⟩
  · intro db auth memId db2 h
    simp only [removeMember] at h
    repeat' split at h
    all_goals cases h
    all_goals rfl
  · intro db uid orgId db2 h
    unfold leave_organization at h
    split at h
    · cases h
    · split at h
      · cases h
      · injection h with h2
        subst h2
        have hg : ∀ p : UserProfile,
            ((fun p : UserProfile =>
              if p.id == uid then { p with current_organization_id := none }
              else p) p).id = p.id := by
          intro p
          by_cases hp : (p.id == uid) = true <;> simp [hp]
        have hup := applyLeave_user_profiles db uid orgId
        constructor
        · by_cases hp : profilePointer db uid = some orgId
          · unfold profilePointer DB.findProfile
            rw [hup, if_pos hp]
            rw [find?_map_profile_id db.user_profiles uid _ hg]
            cases hq : db.user_profiles.find? (fun p => p.id == uid) with
            | none => simp
            | some p =>
                have hpid : p.id = uid := by simpa using List.find?_some hq
                simp [hpid]
          · unfold profilePointer DB.findProfile
            rw [hup, if_neg hp]
            unfold profilePointer DB.findProfile at hp
            exact hp
        · intro v hv
          by_cases hp : profilePointer db uid = some orgId
          · unfold profilePointer DB.findProfile
            rw [hup, if_pos hp]
            rw [find?_map_profile_id db.user_profiles v _ hg]
            cases hq : db.user_profiles.find? (fun p => p.id == v) with
            | none => simp
            | some p =>
                have hpid : p.id = v := by simpa using List.find?_some hq
                simp [hpid, hv]
          · unfold profilePointer DB.findProfile
            rw [hup, if_neg hp]
  · intro db auth orgId db2 h
    unfold deleteOrganization at h
    repeat' split at h
    all_goals cases h
    intro p hp
    obtain ⟨q, hq, rfl⟩ := List.mem_map.mp hp
    by_cases hc : q.current_organization_id = some orgId <;> simp [hc]

/-- C8 witness: the amended theorem instantiated: removing user 20 from
organization 1 leaves the profile table untouched. -/
theorem C8_pointer_clearing_per_path_witness :
    exDB1AfterMemberGone.user_profiles = exDB1.user_profiles :=
  C8_pointer_clearing_per_path.1 exDB1 (some 10) 2 exDB1AfterMemberGone (by decide)

/-- C9: the prevent_todo_org_change trigger guards todo re-parenting. For a
todo row t matched by the update: if the update changes organization_id and
the caller is not admin of both the old and the new value (a null value
imposes no admin requirement, per the IS NOT NULL guards of the trigger), the
row is unchanged in every outcome (either the trigger or the WITH CHECK
raises, rolling back, or the RLS USING filter makes the update a no-op); the
trigger passes every update that keeps organization_id unchanged; and a
creator who is admin of both the old and new values succeeds, with exactly
the matched row rewritten. -/
theorem C9_todo_reparenting_guard (db : DB) (uid todoId : Nat) (t : Todo)
    (newOrg : Option Nat)
    (ht : db.todos.find? (fun x => x.id == todoId) = some t) :
    (t.organization_id ≠ newOrg →
      (adminOfValue db uid t.organization_id && adminOfValue db uid newOrg) = false →
      ∀ db2, updateTodoOrganization db uid todoId newOrg = Except.ok db2 → db2 = db) ∧
    (∀ v : Option Nat, prevent_todo_org_change db uid v v = Except.ok ()) ∧
    (t.user_id = uid →
      adminOfValue db uid t.organization_id = true →
      adminOfValue db uid newOrg = true →
      updateTodoOrganization db uid todoId newOrg =
        Except.ok { db with todos := db.todos.map (fun x =>
          if x.id == todoId then { t with organization_id := newOrg } else x) }) := by
  refine ⟨?_, ?_, ?_⟩
  · intro hne hadm db2 h
    simp only [updateTodoOrganization, ht] at h
    split at h
    · injection h with h2
      exact h2.symm
    · rw [prevent_todo_org_change_eq] at h
      rw [if_neg hne] at h
      rcases Bool.and_eq_false_iff.mp hadm with hf | hf
      · rw [if_pos hf] at h
        simp at h
      · by_cases hg1 : adminOfValue db uid t.organization_id = false
        · rw [if_pos hg1] at h
          simp at h
        · rw [if_neg hg1, if_pos hf] at h
          simp at h
  · intro v
    rw [prevent_todo_org_change_eq]
    simp
  · intro huser hadm1 hadm2
    have hU : todosUpdateUsing db uid t = true := by
      unfold todosUpdateUsing
      rcases hto : t.organization_id with _ | o
      · simp [huser]
      · rw [hto] at hadm1
        simp [huser, member_of_admin db uid o hadm1]
    have hC : todosUpdateCheck db uid { t with organization_id := newOrg } = true := by
      unfold todosUpdateCheck
      rcases hno : newOrg with _ | o
      · simp [huser]
      · rw [hno] at hadm2
        simp [huser, member_of_admin db uid o hadm2]
    simp only [updateTodoOrganization, ht]
    rw [if_neg (by simp [hU])]
    rw [prevent_todo_org_change_eq]
    by_cases hvw : t.organization_id = newOrg
    · rw [if_pos hvw]
      simp [hC]
    · rw [if_neg hvw, if_neg (by simp [hadm1]), if_neg (by simp [hadm2])]
      simp [hC]

/-- C9 witness: user 40, admin of organizations 1 and 2 and creator of todo 1,
moves the todo from organization 1 to organization 2. -/
theorem C9_todo_reparenting_guard_witness :
    updateTodoOrganization exDB9 40 1 (some 2) =
      Except.ok { exDB9 with todos := exDB9.todos.map (fun x =>
        if x.id == 1 then { id := 1, user_id := 40, organization_id := some 2 }
        else x) } :=
  (C9_todo_reparenting_guard exDB9 40 1
    { id := 1, user_id := 40, organization_id := some 1 } (some 2)
    (by decide)).2.2 rfl (by decide) (by decide)
